import Mathlib

/-!
Verification of `openage/convert/gamedata/empiresdat.py`:
the version-branching Schema Builder (`EmpiresDat.get_data_format_members`)
and the top-level orchestration (`load_gamespec`).
-/

namespace EmpiresDatSpec

/-- Modelled from the spec: `GameEdition` lives in
`openage.convert.dataformat.version_detect`, which is not part of the decoding
core shown here.  The editions explicitly branched on in
`empiresdat.py` are `SWGB`, `AOE2DE`, `AOE1DE`, `HDEDITION`, `AOC`, `ROR`;
the enum also holds at least one further edition (the base Age of Kings
release, `AOK`) that reaches only the default branches. -/
inductive GameEdition where
  | SWGB
  | AOE2DE
  | AOE1DE
  | HDEDITION
  | AOC
  | ROR
  | AOK
deriving DecidableEq, Fintype, Repr

/-- Read modes from `openage.convert.dataformat.member_access`:
`READ`, `READ_EXPORT`, `READ_UNKNOWN`, `SKIP` (the spec's Store,
StoreExported, Discard, Skip). -/
inductive ReadMode where
  | READ
  | READ_EXPORT
  | READ_UNKNOWN
  | SKIP
deriving DecidableEq, Repr

/-- Storage kinds from `openage.convert.dataformat.value_members.MemberTypes`,
restricted to the tags used in `empiresdat.py`. -/
inductive StorageType where
  | INT_MEMBER
  | FLOAT_MEMBER
  | ID_MEMBER
  | STRING_MEMBER
  | ARRAY_INT
  | ARRAY_ID
  | ARRAY_CONTAINER
deriving DecidableEq, Repr

/-- Primitive scalar types named in the type-specification strings of
`empiresdat.py` ("uint16_t", "int32_t", "float", ...). -/
inductive PrimType where
  | int8
  | uint8
  | int16
  | uint16
  | int32
  | uint32
  | float32
deriving DecidableEq, Repr

/-- An array length in a type specification: a literal count, or the name of
a sibling field decoded earlier in the same structure. -/
inductive LengthSpec where
  | lit (n : Nat)
  | ref (name : String)
deriving DecidableEq, Repr

/-- The nested structure types referenced by `SubdataMember(ref_type=...)`
in `empiresdat.py` (their own schemas live in sibling modules). -/
inductive RefType where
  | TerrainRestriction
  | PlayerColor
  | Sound
  | Graphic
  | TileSize
  | Terrain
  | TerrainBorder
  | MapInfo
  | Map
  | EffectBundle
  | UnitLine
  | UnitHeader
  | Civ
  | Tech
  | AgeTechTree
  | BuildingConnection
  | UnitConnection
  | ResearchConnection
  | EmpiresDatRef
deriving DecidableEq, Repr

/-- The gating predicate used in `empiresdat.py`'s only `offset_to` argument:
`lambda o: o > 0` (an element is present when the pointer entry is non-zero). -/
inductive OffsetPred where
  | gt_zero
deriving DecidableEq, Repr

/-- Mirrors `openage.convert.dataformat.read_members.SubdataMember` as used in
`empiresdat.py`: element type, length source, `passed_args` names forwarded to
children, and the optional `offset_to` presence gate (gate-array name plus
per-entry predicate). -/
structure SubdataMember where
  ref_type : RefType
  length : LengthSpec
  passed_args : List String
  offset_to : Option (String × OffsetPred)
deriving DecidableEq, Repr

/-- The fourth component of a descriptor tuple in `empiresdat.py`: either a
primitive type string such as "uint16_t", a fixed text field such as
"char[8]", an integer-array string such as
"int32_t[terrain_restriction_count]", or a `SubdataMember`. -/
inductive TypeSpec where
  | prim (t : PrimType)
  | charArray (n : Nat)
  | primArray (t : PrimType) (len : LengthSpec)
  | subdata (s : SubdataMember)
deriving DecidableEq, Repr

/-- One `(read_mode, name, storage_type, type_spec)` descriptor tuple of a
`data_format` list in `empiresdat.py`. -/
structure Member where
  mode : ReadMode
  name : Option String
  storage : StorageType
  typeSpec : TypeSpec
deriving DecidableEq, Repr

open ReadMode StorageType

/-! The descriptor list built by `EmpiresDat.get_data_format_members` is
assembled below from one definition per `data_format.extend`/`append` block
of the Python source, in source order. -/

/-- Initial value of `data_format`. -/
def fmt_versionstr : List Member :=
  [⟨READ, some "versionstr", STRING_MEMBER, .charArray 8⟩]

/-- SWGB-only leading block (a civ count plus four unknown int32 fields). -/
def fmt_swgb_head (game_version : GameEdition) : List Member :=
  if game_version = .SWGB then
    [⟨READ, some "civ_count_swgb", INT_MEMBER, .prim .uint16⟩,
     ⟨READ_UNKNOWN, none, INT_MEMBER, .prim .int32⟩,
     ⟨READ_UNKNOWN, none, INT_MEMBER, .prim .int32⟩,
     ⟨READ_UNKNOWN, none, INT_MEMBER, .prim .int32⟩,
     ⟨READ_UNKNOWN, none, INT_MEMBER, .prim .int32⟩]
  else []

/-- Terrain header data. -/
def fmt_terrain_header : List Member :=
  [⟨READ, some "terrain_restriction_count", INT_MEMBER, .prim .uint16⟩,
   ⟨READ, some "terrain_count", INT_MEMBER, .prim .uint16⟩,
   ⟨READ, some "float_ptr_terrain_tables", ARRAY_ID,
     .primArray .int32 (.ref "terrain_restriction_count")⟩]

/-- The pass-graphics pointer array, absent for ROR and AOE1DE. -/
def fmt_pass_graphics (game_version : GameEdition) : List Member :=
  if ¬(game_version = .ROR ∨ game_version = .AOE1DE) then
    [⟨READ, some "terrain_pass_graphics_ptrs", ARRAY_ID,
      .primArray .int32 (.ref "terrain_restriction_count")⟩]
  else []

/-- Terrain restrictions, player colors, sounds, graphics and map scalars. -/
def fmt_main_block : List Member :=
  [⟨READ, some "terrain_restrictions", ARRAY_CONTAINER,
     .subdata ⟨.TerrainRestriction, .ref "terrain_restriction_count",
               ["terrain_count"], none⟩⟩,
   -- player color data
   ⟨READ, some "player_color_count", INT_MEMBER, .prim .uint16⟩,
   ⟨READ, some "player_colors", ARRAY_CONTAINER,
     .subdata ⟨.PlayerColor, .ref "player_color_count", [], none⟩⟩,
   -- sound data
   ⟨READ_EXPORT, some "sound_count", INT_MEMBER, .prim .uint16⟩,
   ⟨READ_EXPORT, some "sounds", ARRAY_CONTAINER,
     .subdata ⟨.Sound, .ref "sound_count", [], none⟩⟩,
   -- graphic data
   ⟨READ, some "graphic_count", INT_MEMBER, .prim .uint16⟩,
   ⟨READ, some "graphic_ptrs", ARRAY_ID,
     .primArray .uint32 (.ref "graphic_count")⟩,
   ⟨READ_EXPORT, some "graphics", ARRAY_CONTAINER,
     .subdata ⟨.Graphic, .ref "graphic_count", [],
               some ("graphic_ptrs", .gt_zero)⟩⟩,
   -- terrain data
   ⟨SKIP, some "virt_function_ptr", ID_MEMBER, .prim .int32⟩,
   ⟨SKIP, some "map_pointer", ID_MEMBER, .prim .int32⟩,
   ⟨SKIP, some "map_width", INT_MEMBER, .prim .int32⟩,
   ⟨SKIP, some "map_height", INT_MEMBER, .prim .int32⟩,
   ⟨SKIP, some "world_width", INT_MEMBER, .prim .int32⟩,
   ⟨SKIP, some "world_height", INT_MEMBER, .prim .int32⟩,
   ⟨READ_EXPORT, some "tile_sizes", ARRAY_CONTAINER,
     .subdata ⟨.TileSize, .lit 19, [], none⟩⟩,
   ⟨SKIP, some "padding1", INT_MEMBER, .prim .int16⟩]

/-- The terrains container: its hardcoded length is selected by the
edition branch chain, with a final `else` default of 32. -/
def fmt_terrains (game_version : GameEdition) : List Member :=
  if game_version = .SWGB then
    [⟨READ_EXPORT, some "terrains", ARRAY_CONTAINER,
      .subdata ⟨.Terrain, .lit 55, [], none⟩⟩]
  else if game_version = .AOE2DE then
    [⟨READ_EXPORT, some "terrains", ARRAY_CONTAINER,
      .subdata ⟨.Terrain, .lit 200, [], none⟩⟩]
  else if game_version = .AOE1DE then
    [⟨READ_EXPORT, some "terrains", ARRAY_CONTAINER,
      .subdata ⟨.Terrain, .lit 96, [], none⟩⟩]
  else if game_version = .HDEDITION then
    [⟨READ_EXPORT, some "terrains", ARRAY_CONTAINER,
      .subdata ⟨.Terrain, .lit 100, [], none⟩⟩]
  else if game_version = .AOC then
    [⟨READ_EXPORT, some "terrains", ARRAY_CONTAINER,
      .subdata ⟨.Terrain, .lit 42, [], none⟩⟩]
  else
    [⟨READ_EXPORT, some "terrains", ARRAY_CONTAINER,
      .subdata ⟨.Terrain, .lit 32, [], none⟩⟩]

/-- Terrain borders and the map row offset, absent for AOE2DE. -/
def fmt_terrain_border (game_version : GameEdition) : List Member :=
  if ¬(game_version = .AOE2DE) then
    [⟨READ, some "terrain_border", ARRAY_CONTAINER,
      .subdata ⟨.TerrainBorder, .lit 16, [], none⟩⟩,
     ⟨SKIP, some "map_row_offset", INT_MEMBER, .prim .int32⟩]
  else []

/-- Map bounding-box floats, absent for ROR and AOE1DE. -/
def fmt_map_floats (game_version : GameEdition) : List Member :=
  if ¬(game_version = .ROR ∨ game_version = .AOE1DE) then
    [⟨SKIP, some "map_min_x", FLOAT_MEMBER, .prim .float32⟩,
     ⟨SKIP, some "map_min_y", FLOAT_MEMBER, .prim .float32⟩,
     ⟨SKIP, some "map_max_x", FLOAT_MEMBER, .prim .float32⟩,
     ⟨SKIP, some "map_max_y", FLOAT_MEMBER, .prim .float32⟩,
     ⟨SKIP, some "map_max_xplus1", FLOAT_MEMBER, .prim .float32⟩,
     ⟨SKIP, some "map_min_yplus1", FLOAT_MEMBER, .prim .float32⟩]
  else []

/-- Tile geometry and row/column scalars, unconditional. -/
def fmt_tile_scalars : List Member :=
  [⟨READ, some "terrain_count_additional", INT_MEMBER, .prim .uint16⟩,
   ⟨READ, some "borders_used", INT_MEMBER, .prim .uint16⟩,
   ⟨READ, some "max_terrain", INT_MEMBER, .prim .int16⟩,
   ⟨READ_EXPORT, some "tile_width", INT_MEMBER, .prim .int16⟩,
   ⟨READ_EXPORT, some "tile_height", INT_MEMBER, .prim .int16⟩,
   ⟨READ_EXPORT, some "tile_half_height", INT_MEMBER, .prim .int16⟩,
   ⟨READ_EXPORT, some "tile_half_width", INT_MEMBER, .prim .int16⟩,
   ⟨READ_EXPORT, some "elev_height", INT_MEMBER, .prim .int16⟩,
   ⟨SKIP, some "current_row", INT_MEMBER, .prim .int16⟩,
   ⟨SKIP, some "current_column", INT_MEMBER, .prim .int16⟩,
   ⟨SKIP, some "block_beginn_row", INT_MEMBER, .prim .int16⟩,
   ⟨SKIP, some "block_end_row", INT_MEMBER, .prim .int16⟩,
   ⟨SKIP, some "block_begin_column", INT_MEMBER, .prim .int16⟩,
   ⟨SKIP, some "block_end_column", INT_MEMBER, .prim .int16⟩]

/-- The search-map/frame-change skip block, whose order and widths differ
between (ROR, AOE1DE) and all other editions. -/
def fmt_search_map (game_version : GameEdition) : List Member :=
  if ¬(game_version = .ROR ∨ game_version = .AOE1DE) then
    [⟨SKIP, some "search_map_ptr", INT_MEMBER, .prim .int32⟩,
     ⟨SKIP, some "search_map_rows_ptr", INT_MEMBER, .prim .int32⟩,
     ⟨SKIP, some "any_frame_change", INT_MEMBER, .prim .int8⟩]
  else
    [⟨SKIP, some "any_frame_change", INT_MEMBER, .prim .int32⟩,
     ⟨SKIP, some "search_map_ptr", INT_MEMBER, .prim .int32⟩,
     ⟨SKIP, some "search_map_rows_ptr", INT_MEMBER, .prim .int32⟩]

/-- Visibility flags, unconditional. -/
def fmt_flags : List Member :=
  [⟨SKIP, some "map_visible_flag", INT_MEMBER, .prim .int8⟩,
   ⟨SKIP, some "fog_flag", INT_MEMBER, .prim .int8⟩]

/-- Unknown terrain blobs, absent for AOE2DE and sized per edition. -/
def fmt_terrain_blobs (game_version : GameEdition) : List Member :=
  if ¬(game_version = .AOE2DE) then
    if game_version = .SWGB then
      [⟨READ_UNKNOWN, some "terrain_blob0", ARRAY_INT,
        .primArray .uint8 (.lit 25)⟩,
       ⟨READ_UNKNOWN, some "terrain_blob1", ARRAY_INT,
        .primArray .uint32 (.lit 157)⟩]
    else if game_version = .ROR ∨ game_version = .AOE1DE then
      [⟨READ_UNKNOWN, some "terrain_blob0", ARRAY_INT,
        .primArray .uint8 (.lit 2)⟩,
       ⟨READ_UNKNOWN, some "terrain_blob1", ARRAY_INT,
        .primArray .uint32 (.lit 5)⟩]
    else
      [⟨READ_UNKNOWN, some "terrain_blob0", ARRAY_INT,
        .primArray .uint8 (.lit 21)⟩,
       ⟨READ_UNKNOWN, some "terrain_blob1", ARRAY_INT,
        .primArray .uint32 (.lit 157)⟩]
  else []

/-- Random map config and technology effect data, unconditional. -/
def fmt_maps_effects : List Member :=
  [⟨READ, some "random_map_count", INT_MEMBER, .prim .uint32⟩,
   ⟨READ, some "random_map_ptr", ID_MEMBER, .prim .uint32⟩,
   ⟨READ, some "map_infos", ARRAY_CONTAINER,
     .subdata ⟨.MapInfo, .ref "random_map_count", [], none⟩⟩,
   ⟨READ, some "maps", ARRAY_CONTAINER,
     .subdata ⟨.Map, .ref "random_map_count", [], none⟩⟩,
   ⟨READ_EXPORT, some "effect_bundle_count", INT_MEMBER, .prim .uint32⟩,
   ⟨READ_EXPORT, some "effect_bundles", ARRAY_CONTAINER,
     .subdata ⟨.EffectBundle, .ref "effect_bundle_count", [], none⟩⟩]

/-- SWGB-only unit lines. -/
def fmt_unit_lines (game_version : GameEdition) : List Member :=
  if game_version = .SWGB then
    [⟨READ, some "unit_line_count", INT_MEMBER, .prim .uint16⟩,
     ⟨READ, some "unit_lines", ARRAY_CONTAINER,
       .subdata ⟨.UnitLine, .ref "unit_line_count", [], none⟩⟩]
  else []

/-- Unit header data, absent for ROR and AOE1DE. -/
def fmt_unit_headers (game_version : GameEdition) : List Member :=
  if ¬(game_version = .ROR ∨ game_version = .AOE1DE) then
    [⟨READ_EXPORT, some "unit_count", INT_MEMBER, .prim .uint32⟩,
     ⟨READ_EXPORT, some "unit_headers", ARRAY_CONTAINER,
       .subdata ⟨.UnitHeader, .ref "unit_count", [], none⟩⟩]
  else []

/-- Civilisation data, unconditional. -/
def fmt_civs : List Member :=
  [⟨READ_EXPORT, some "civ_count", INT_MEMBER, .prim .uint16⟩,
   ⟨READ_EXPORT, some "civs", ARRAY_CONTAINER,
     .subdata ⟨.Civ, .ref "civ_count", [], none⟩⟩]

/-- SWGB-only unknown int8 field (appears twice in the source, once after
civs and once after researches). -/
def fmt_swgb_unknown (game_version : GameEdition) : List Member :=
  if game_version = .SWGB then
    [⟨READ_UNKNOWN, none, INT_MEMBER, .prim .int8⟩]
  else []

/-- Research data, unconditional. -/
def fmt_researches : List Member :=
  [⟨READ_EXPORT, some "research_count", INT_MEMBER, .prim .uint16⟩,
   ⟨READ_EXPORT, some "researches", ARRAY_CONTAINER,
     .subdata ⟨.Tech, .ref "research_count", [], none⟩⟩]

/-- Timing scalars and the technology-tree block, absent for ROR and AOE1DE;
the unit connection count is uint16 for SWGB and uint8 otherwise. -/
def fmt_tech_tree (game_version : GameEdition) : List Member :=
  if ¬(game_version = .ROR ∨ game_version = .AOE1DE) then
    [⟨SKIP, some "time_slice", INT_MEMBER, .prim .int32⟩,
     ⟨SKIP, some "unit_kill_rate", INT_MEMBER, .prim .int32⟩,
     ⟨SKIP, some "unit_kill_total", INT_MEMBER, .prim .int32⟩,
     ⟨SKIP, some "unit_hitpoint_rate", INT_MEMBER, .prim .int32⟩,
     ⟨SKIP, some "unit_hitpoint_total", INT_MEMBER, .prim .int32⟩,
     ⟨SKIP, some "razing_kill_rate", INT_MEMBER, .prim .int32⟩,
     ⟨SKIP, some "razing_kill_total", INT_MEMBER, .prim .int32⟩,
     ⟨READ_EXPORT, some "age_connection_count", INT_MEMBER, .prim .uint8⟩,
     ⟨READ_EXPORT, some "building_connection_count", INT_MEMBER, .prim .uint8⟩]
    ++ (if game_version = .SWGB then
         [⟨READ_EXPORT, some "unit_connection_count", INT_MEMBER, .prim .uint16⟩]
        else
         [⟨READ_EXPORT, some "unit_connection_count", INT_MEMBER, .prim .uint8⟩])
    ++ [⟨READ_EXPORT, some "tech_connection_count", INT_MEMBER, .prim .uint8⟩,
        ⟨READ_EXPORT, some "total_unit_tech_groups", INT_MEMBER, .prim .int32⟩,
        ⟨READ_EXPORT, some "age_connections", ARRAY_CONTAINER,
          .subdata ⟨.AgeTechTree, .ref "age_connection_count", [], none⟩⟩,
        ⟨READ_EXPORT, some "building_connections", ARRAY_CONTAINER,
          .subdata ⟨.BuildingConnection, .ref "building_connection_count", [], none⟩⟩,
        ⟨READ_EXPORT, some "unit_connections", ARRAY_CONTAINER,
          .subdata ⟨.UnitConnection, .ref "unit_connection_count", [], none⟩⟩,
        ⟨READ_EXPORT, some "tech_connections", ARRAY_CONTAINER,
          .subdata ⟨.ResearchConnection, .ref "tech_connection_count", [], none⟩⟩]
  else []

/-- `EmpiresDat.get_data_format_members` from `empiresdat.py`: the blocks
above concatenated in source order.  The Python code receives a
`game_version` tuple and branches only on `game_version[0]` (the edition),
so the edition is the parameter here. -/
def get_data_format_members (game_version : GameEdition) : List Member :=
  fmt_versionstr
  ++ fmt_swgb_head game_version
  ++ fmt_terrain_header
  ++ fmt_pass_graphics game_version
  ++ fmt_main_block
  ++ fmt_terrains game_version
  ++ fmt_terrain_border game_version
  ++ fmt_map_floats game_version
  ++ fmt_tile_scalars
  ++ fmt_search_map game_version
  ++ fmt_flags
  ++ fmt_terrain_blobs game_version
  ++ fmt_maps_effects
  ++ fmt_unit_lines game_version
  ++ fmt_unit_headers game_version
  ++ fmt_civs
  ++ fmt_swgb_unknown game_version
  ++ fmt_researches
  ++ fmt_swgb_unknown game_version
  ++ fmt_tech_tree game_version

/-- `EmpiresDatWrapper.get_data_format_members` from `empiresdat.py`: a single
container field holding exactly one `EmpiresDat` structure. -/
def wrapper_data_format_members (_game_version : GameEdition) : List Member :=
  [⟨READ_EXPORT, some "empiresdat", ARRAY_CONTAINER,
    .subdata ⟨.EmpiresDatRef, .lit 1, [], none⟩⟩]

/-! Helper queries over a descriptor list. -/

/-- The names a descriptor resolves against earlier siblings: a sibling-name
array length of an `ARRAY_INT`/`ARRAY_ID` field, and a `SubdataMember`'s
sibling-name length, its `passed_args`, and its `offset_to` gate array. -/
def memberRefNames (m : Member) : List String :=
  match m.typeSpec with
  | .primArray _ (.ref n) => [n]
  | .subdata s =>
      (match s.length with
       | .ref n => [n]
       | .lit _ => [])
      ++ s.passed_args
      ++ (match s.offset_to with
          | some (n, _) => [n]
          | none => [])
  | _ => []

/-- The name a descriptor contributes to the sibling-value mapping: its name,
when the read mode stores the value (`READ` or `READ_EXPORT`). -/
def storedNameOf (m : Member) : List String :=
  match m.mode, m.name with
  | READ, some n => [n]
  | READ_EXPORT, some n => [n]
  | _, _ => []

/-- Walk the list in order, checking that every sibling-name reference of
each descriptor names a stored field that appeared strictly earlier. -/
def refsResolveEarlier (seen : List String) : List Member → Bool
  | [] => true
  | m :: rest =>
      (memberRefNames m).all (fun n => seen.contains n)
      && refsResolveEarlier (seen ++ storedNameOf m) rest

/-- The first descriptor carrying the given name. -/
def fieldAt (ms : List Member) (n : String) : Option Member :=
  ms.find? (fun m => m.name == some n)

/-- Index of the first descriptor carrying the given name. -/
def fieldIdx (ms : List Member) (n : String) : Option Nat :=
  ms.findIdx? (fun m => m.name == some n)

/-- The length spec of the `SubdataMember` of the first descriptor named
"terrains", when there is one. -/
def terrainsLength (ms : List Member) : Option LengthSpec :=
  match fieldAt ms "terrains" with
  | some ⟨_, _, _, .subdata s⟩ => some s.length
  | _ => none

/-- All names of gated container descriptors (those whose `SubdataMember`
has `offset_to` set), in order. -/
def gatedNames (ms : List Member) : List (Option String) :=
  (ms.filter (fun m =>
    match m.typeSpec with
    | .subdata s => s.offset_to.isSome
    | _ => false)).map Member.name

/-- Check the presence-gate invariant over a descriptor list: every gated
container's gate array is a previously declared array field whose own
length spec equals the container's length spec. -/
def gateLengthsAgree (ms : List Member) : Bool :=
  ms.all (fun m =>
    match m.typeSpec with
    | .subdata s =>
        match s.offset_to with
        | none => true
        | some (g, _) =>
            match fieldAt ms g with
            | some gm =>
                match gm.typeSpec with
                | .primArray _ glen => glen == s.length
                | _ => false
            | none => false
    | _ => true)

/-! Top-level orchestration: `load_gamespec` from `empiresdat.py`.
The collaborators it calls are not part of this file's source
(`zlib.decompress`, `GenieStructure.read`, `pickle`, the filesystem), so
they enter the model as parameters: the byte-stream transform and the
decoder as functions, the two fallible I/O interactions as outcome values. -/

/-- Outcome of the cache-consulting block of `load_gamespec`:
`open(cachefile_name, "rb")` either raises `FileNotFoundError` (caught),
raises some other `OSError` such as `PermissionError` (not caught), or
succeeds, after which `pickle.load` either raises (caught broadly) or
returns the cached tree. -/
inductive CacheReadOutcome (α : Type) where
  | fileNotFound : CacheReadOutcome α
  | openFailure : CacheReadOutcome α
  | unpickleFailure : CacheReadOutcome α
  | ok : α → CacheReadOutcome α
deriving DecidableEq, Repr

/-- The ways the Python `load_gamespec` can raise instead of returning a
tree: an uncaught error opening the cache file for reading, an `IndexError`
from `gamespec[0]` on an empty decode result, or an uncaught error while
opening/writing the cache file for storing. -/
inductive LoadFailure where
  | cacheOpenFailure
  | listIndexFailure
  | storeFailure
deriving DecidableEq, Repr

/-- `load_gamespec(fileobj, game_version, cachefile_name=None,
load_cache=False)` from `empiresdat.py`.  `decompress` stands for
`zlib.decompress(-, -15)`; `wrapperRead` stands for
`EmpiresDatWrapper().read(file_data, 0, game_version)` (returning the end
offset and the decoded element list); `cacheRead` is the outcome of the
cache-read block; `storeOk` tells whether `open`+`pickle.dump` in the store
block succeed; `cachefile_name` tells whether a (truthy) cache file name was
passed. -/
def load_gamespec {α : Type} (decompress : List Nat → List Nat)
    (wrapperRead : List Nat → GameEdition → Nat × List α)
    (cacheRead : CacheReadOutcome α) (storeOk : Bool)
    (fileobj : List Nat) (game_version : GameEdition)
    (cachefile_name : Bool) (load_cache : Bool) : Except LoadFailure α :=
  -- the fall-through path: read the file ourselves
  let rest : Except LoadFailure α :=
    let file_data := decompress fileobj
    let gamespec := (wrapperRead file_data game_version).2
    -- remove the list surrounding the converted data: gamespec[0]
    match gamespec with
    | [] => .error .listIndexFailure
    | g :: _ =>
        if cachefile_name then
          if storeOk then .ok g else .error .storeFailure
        else .ok g
  -- try to use the cached result from a previous run
  if cachefile_name && load_cache then
    match cacheRead with
    | .ok wrapper => .ok wrapper
    | .openFailure => .error .cacheOpenFailure
    | .fileNotFound => rest
    | .unpickleFailure => rest
  else
    rest

/-- Whether the first descriptor named `a` appears strictly before the first
descriptor named `b`. -/
def idxLt (ms : List Member) (a b : String) : Bool :=
  match fieldIdx ms a, fieldIdx ms b with
  | some i, some j => i < j
  | _, _ => false

/-- How many descriptors carry the given name. -/
def nameCount (ms : List Member) (n : String) : Nat :=
  (ms.filter (fun m => m.name == some n)).length

/-- Per-edition check of the search-map/frame-change skip block: all three
fields are present as SKIP fields; for ROR and AOE1DE `any_frame_change` is
an int32 preceding the two search-map pointers, otherwise an int8 following
them, the two pointers being int32 throughout. -/
def search_map_block_check (e : GameEdition) : Bool :=
  let ms := get_data_format_members e
  (fieldAt ms "search_map_ptr"
    == some ⟨SKIP, some "search_map_ptr", INT_MEMBER, .prim .int32⟩)
  && (fieldAt ms "search_map_rows_ptr"
    == some ⟨SKIP, some "search_map_rows_ptr", INT_MEMBER, .prim .int32⟩)
  && (if e = .ROR ∨ e = .AOE1DE then
        (fieldAt ms "any_frame_change"
          == some ⟨SKIP, some "any_frame_change", INT_MEMBER, .prim .int32⟩)
        && idxLt ms "any_frame_change" "search_map_ptr"
        && idxLt ms "any_frame_change" "search_map_rows_ptr"
      else
        (fieldAt ms "any_frame_change"
          == some ⟨SKIP, some "any_frame_change", INT_MEMBER, .prim .int8⟩)
        && idxLt ms "search_map_ptr" "any_frame_change"
        && idxLt ms "search_map_rows_ptr" "any_frame_change")

/-- The discrete edition-to-length table for the hardcoded "terrains"
container length, including the fallthrough default of 32. -/
def terrains_len_table (e : GameEdition) : Nat :=
  if e = .SWGB then 55 else if e = .AOE2DE then 200
  else if e = .AOE1DE then 96 else if e = .HDEDITION then 100
  else if e = .AOC then 42 else 32

/-- Per-edition check that exactly one "terrains" descriptor appears and
that it is the READ_EXPORT container of `Terrain` elements with the literal
length selected by the edition table. -/
def terrains_check (e : GameEdition) : Bool :=
  let ms := get_data_format_members e
  nameCount ms "terrains" == 1
  && (fieldAt ms "terrains"
    == some ⟨READ_EXPORT, some "terrains", ARRAY_CONTAINER,
        .subdata ⟨.Terrain, .lit (terrains_len_table e), [], none⟩⟩)

/-- Per-edition check of the presence-gate invariant: gate-array lengths
agree with the gated containers' length sources, the only gated field is
"graphics" (gated on "graphic_ptrs" with length source "graphic_count"),
and "graphic_ptrs" is itself declared with length "graphic_count". -/
def gate_check (e : GameEdition) : Bool :=
  let ms := get_data_format_members e
  gateLengthsAgree ms
  && (gatedNames ms == [some "graphics"])
  && (fieldAt ms "graphics"
    == some ⟨READ_EXPORT, some "graphics", ARRAY_CONTAINER,
        .subdata ⟨.Graphic, .ref "graphic_count", [],
          some ("graphic_ptrs", .gt_zero)⟩⟩)
  && (fieldAt ms "graphic_ptrs"
    == some ⟨READ, some "graphic_ptrs", ARRAY_ID,
        .primArray .uint32 (.ref "graphic_count")⟩)

/-! Claim theorems. -/

/-- C1, counterexample: the claim says an edition outside the explicitly
branched set (SWGB, AOE2DE, AOE1DE, HDEDITION, AOC, ROR) makes the Schema
Builder fail with UnsupportedVersion rather than return a descriptor list.
In the code, `AOK` is such an edition, yet `get_data_format_members`
returns a non-empty descriptor list for it, whose "terrains" container was
silently given the default literal length 32 by the `else` fallthrough. -/
theorem C1_unknown_edition_counterexample :
    GameEdition.AOK ∉ [GameEdition.SWGB, GameEdition.AOE2DE, GameEdition.AOE1DE,
      GameEdition.HDEDITION, GameEdition.AOC, GameEdition.ROR] ∧
    get_data_format_members GameEdition.AOK ≠ [] ∧
    terrainsLength (get_data_format_members GameEdition.AOK) =
      some (.lit 32) := by decide

set_option maxHeartbeats 1000000 in
/-- C1, amended: for every edition outside the explicitly branched set,
`get_data_format_members` does not fail: the `else` fallthrough silently
selects the default layout, in particular a "terrains" container of literal
length 32.  There is no UnsupportedVersion failure in the Schema Builder. -/
theorem C1_fallthrough_default (e : GameEdition)
    (h : e ∉ [GameEdition.SWGB, GameEdition.AOE2DE, GameEdition.AOE1DE,
      GameEdition.HDEDITION, GameEdition.AOC, GameEdition.ROR]) :
    get_data_format_members e ≠ [] ∧
    terrainsLength (get_data_format_members e) = some (.lit 32) := by
  revert h
  revert e
  decide

/-- C1, witness: the amended statement instantiated at the edition AOK. -/
theorem C1_fallthrough_default_witness :
    get_data_format_members GameEdition.AOK ≠ [] ∧
    terrainsLength (get_data_format_members GameEdition.AOK) =
      some (.lit 32) :=
  C1_fallthrough_default GameEdition.AOK (by decide)

/-- C2, counterexample: the claim says any failure to read the cached tree
is caught and treated as a cache miss, never propagated, and that the result
then equals the call with no cache file.  But only `FileNotFoundError` is
caught around `open(cachefile_name, "rb")`: an open failure such as
`PermissionError` (an unreadable cache entry) propagates out of
`load_gamespec` instead of being downgraded to a miss, while the same call
without a cache file returns the decoded tree. -/
theorem C2_open_failure_counterexample :
    load_gamespec (fun l => l) (fun _ _ => ((0 : Nat), [(7 : Nat)]))
      .openFailure true [] .AOC true true = .error .cacheOpenFailure ∧
    load_gamespec (fun l => l) (fun _ _ => ((0 : Nat), [(7 : Nat)]))
      .openFailure true [] .AOC false true = .ok 7 := ⟨rfl, rfl⟩

/-- C2, amended: the failures downgraded to a cache miss are exactly a
missing cache file and a pickle deserialization failure; for those, and
provided the subsequent cache store step succeeds, `load_gamespec` with the
cache file given returns the same result as the call with no cache file
(whatever the `load_cache` flag). -/
theorem C2_cache_miss_downgrade {α : Type} (decompress : List Nat → List Nat)
    (wrapperRead : List Nat → GameEdition → Nat × List α)
    (cacheRead : CacheReadOutcome α) (fileobj : List Nat)
    (gv : GameEdition) (lc : Bool)
    (h : cacheRead = .fileNotFound ∨ cacheRead = .unpickleFailure) :
    load_gamespec decompress wrapperRead cacheRead true fileobj gv true lc
      = load_gamespec decompress wrapperRead cacheRead true fileobj gv false lc := by
  rcases h with h | h <;> subst h <;> cases lc <;>
    simp only [load_gamespec, Bool.and_true, Bool.and_false, if_true, if_false] <;>
    cases (wrapperRead (decompress fileobj) gv).2 <;> rfl

/-- C2, witness: the amended statement at a concrete corrupted cache entry. -/
theorem C2_cache_miss_downgrade_witness :
    load_gamespec (fun l => l) (fun _ _ => ((0 : Nat), [(7 : Nat)]))
      .unpickleFailure true [] .AOC true true
      = load_gamespec (fun l => l) (fun _ _ => ((0 : Nat), [(7 : Nat)]))
        .unpickleFailure true [] .AOC false true :=
  C2_cache_miss_downgrade (fun l => l) (fun _ _ => ((0 : Nat), [(7 : Nat)]))
    CacheReadOutcome.unpickleFailure [] GameEdition.AOC true (Or.inr rfl)

/-- C3, counterexample: the claim says `load_gamespec` receives
already-decompressed bytes and applies no byte-stream transform, the
returned tree being the decode of the bytes it is given.  In the code the
raw file contents pass through `zlib.decompress(-, -15)` before decoding:
with a transform that prepends a byte and a decoder returning the input
length, the returned tree is 1 (the decode of the transformed bytes) while
the decode of the given empty byte buffer itself is 0. -/
theorem C3_decompress_inside_counterexample :
    load_gamespec (fun l => 0 :: l) (fun b _ => (b.length, [b.length]))
      .fileNotFound true [] .AOC false false = .ok 1 ∧
    ((fun (b : List Nat) (_ : GameEdition) => (b.length, [b.length])) [] .AOC).2
      = [0] := ⟨rfl, rfl⟩

/-- C3, amended: `load_gamespec` decompresses the bytes it reads itself; the
tree it returns is the decode of `decompress(bytes)` (its first element),
not of the given bytes. -/
theorem C3_decode_of_decompressed {α : Type} (decompress : List Nat → List Nat)
    (wrapperRead : List Nat → GameEdition → Nat × List α)
    (cacheRead : CacheReadOutcome α) (fileobj : List Nat) (gv : GameEdition) :
    load_gamespec decompress wrapperRead cacheRead true fileobj gv false false
      = match (wrapperRead (decompress fileobj) gv).2 with
        | [] => .error .listIndexFailure
        | g :: _ => .ok g := by
  simp only [load_gamespec]
  cases (wrapperRead (decompress fileobj) gv).2 <;> rfl

/-- C4, counterexample: the claim says a failure while persisting the cache
does not prevent the decoded tree from being returned.  The store block of
`load_gamespec` has no exception handling: with a failing store the call
propagates the error and the tree (which the same call returns when the
store succeeds) is not returned. -/
theorem C4_store_failure_counterexample :
    load_gamespec (fun l => l) (fun _ _ => ((0 : Nat), [(7 : Nat)]))
      .fileNotFound false [] .AOC true false = .error .storeFailure ∧
    load_gamespec (fun l => l) (fun _ _ => ((0 : Nat), [(7 : Nat)]))
      .fileNotFound true [] .AOC true false = .ok 7 := ⟨rfl, rfl⟩

/-- C4, amended: with a cache file name given (and the cache not consulted,
as by default), the decoded tree is returned exactly when the store step
succeeds; a store failure propagates to the caller instead. -/
theorem C4_store_result {α : Type} (decompress : List Nat → List Nat)
    (wrapperRead : List Nat → GameEdition → Nat × List α)
    (cacheRead : CacheReadOutcome α) (storeOk : Bool)
    (fileobj : List Nat) (gv : GameEdition) :
    load_gamespec decompress wrapperRead cacheRead storeOk fileobj gv true false
      = match (wrapperRead (decompress fileobj) gv).2 with
        | [] => .error .listIndexFailure
        | g :: _ => if storeOk then .ok g else .error .storeFailure := by
  simp only [load_gamespec]
  cases (wrapperRead (decompress fileobj) gv).2 <;> rfl

/-- C5, counterexample: the claim says that whenever a cache file name is
given, the cache is consulted before any decoding and a hit is returned
immediately.  But the cache is consulted only when `load_cache` is also
true, and `load_cache` defaults to False: with a cache file name given,
`load_cache` at its default, and a cache hit holding the tree 5 available,
`load_gamespec` ignores it and returns the freshly decoded tree 0. -/
theorem C5_load_cache_flag_counterexample :
    load_gamespec (fun l => l) (fun _ _ => ((0 : Nat), [(0 : Nat)]))
      (.ok 5) true [] .AOC true false = .ok 0 ∧
    load_gamespec (fun l => l) (fun _ _ => ((0 : Nat), [(0 : Nat)]))
      (.ok 5) true [] .AOC true false ≠ .ok 5 := by
  constructor
  · rfl
  · intro h
    simp only [load_gamespec] at h
    exact absurd (Except.ok.inj h) (by decide)

/-- C5, amended: when a cache file name is given and `load_cache` is true,
a cache hit is returned immediately: the result is the cached tree,
independently of the decompressor, the decoder, the raw bytes and the store
outcome. -/
theorem C5_cache_hit_immediate {α : Type} (decompress : List Nat → List Nat)
    (wrapperRead : List Nat → GameEdition → Nat × List α)
    (t : α) (storeOk : Bool) (fileobj : List Nat) (gv : GameEdition) :
    load_gamespec decompress wrapperRead (.ok t) storeOk fileobj gv true true
      = .ok t := rfl

set_option maxHeartbeats 1000000 in
/-- C6: for every edition, every sibling-name length reference in the
descriptor list returned by `get_data_format_members` — the name-denoted
array lengths of ARRAY_INT/ARRAY_ID fields and of container arrays, every
`passed_args` name and every `offset_to` gate name — names a READ or
READ_EXPORT (Store/StoreExported) field that appears strictly earlier in
the list. -/
theorem C6_length_refs_resolve_earlier :
    ∀ e : GameEdition,
      refsResolveEarlier [] (get_data_format_members e) = true := by decide

set_option maxHeartbeats 1000000 in
/-- C7: for every edition, exactly one "terrains" descriptor appears in the
returned list, and it is the READ_EXPORT Terrain container whose literal
length is selected by the discrete edition table: 55 for SWGB, 200 for
AOE2DE, 96 for AOE1DE, 100 for HDEDITION, 42 for AOC, and 32 otherwise. -/
theorem C7_terrains_length_table :
    ∀ e : GameEdition, terrains_check e = true := by decide

set_option maxHeartbeats 1000000 in
/-- C8: for every edition, every gated container array in the returned list
has a gate array declared with the same length source; the only gated field
is "graphics", gated on "graphic_ptrs" entries being positive, with length
source "graphic_count", and "graphic_ptrs" is itself declared with length
"graphic_count". -/
theorem C8_presence_gate_lengths :
    ∀ e : GameEdition, gate_check e = true := by decide

set_option maxHeartbeats 1000000 in
/-- C9: for every edition, the non-absent field names in the returned
descriptor list are pairwise distinct, so sibling-name lookups are
unambiguous. -/
theorem C9_names_unique :
    ∀ e : GameEdition,
      ((get_data_format_members e).filterMap Member.name).Nodup := by decide

set_option maxHeartbeats 1000000 in
/-- C10: for every edition the three skip fields are present; for ROR and
AOE1DE "any_frame_change" is an int32 preceding "search_map_ptr" and
"search_map_rows_ptr", for every other edition it is an int8 following
them. -/
theorem C10_search_map_block :
    ∀ e : GameEdition, search_map_block_check e = true := by decide

end EmpiresDatSpec
